import Mathlib

/-!
Admin panel: `front-end/src/App.js`

A shallow embedding of the `App` component: its seven `useState` cells, the
handlers `fetchReports`, `connectWallet`, `disconnectWallet`, `verifyReport`
and `togglePreview`, and the part of the returned JSX that depends on the
state (wallet header, loading spinner, report cards, evidence preview).

Handlers are written in a small state-and-exception monad `Act` that also
records the externally visible effects (network reads, notifications,
contract calls) in program order.  Everything that lives outside the
repository is an input of the model:

* `Config`     the constants of `./config` (`contractAddress`, `contractABI`);
* `Platform`   library functions (`String.prototype.toLowerCase`,
               `ethers.parseEther`, the `ethers.Contract` constructor);
* `WalletEnv`  what the injected provider answers during one `connectWallet`;
* `VerifyEnv`  what the user, the contract and the backend answer during one
               `verifyReport`.

An asynchronous handler is run to completion: an `await` is the point where
the answer of the environment is read.
-/

namespace AdminPanel

/-! ## Data model -/

/-- Line 9: `const OWNER_ADDRESS = "0x0a5b...0278";` -/
def OWNER_ADDRESS : String := "0x0a5be85d5437d8db3887de2acf64457c67030278"

/-- Line 58: `const baseURL = 'http://localhost:8080/api/reports';` -/
def baseURL : String := "http://localhost:8080/api/reports"

/-- One element of the array returned by the reports endpoint; the fields are
the ones the component reads (`report.id`, `report.reporter`, ...). -/
structure Report where
  id : Int
  reporter : String
  location : String
  description : String
  evidenceLink : String
  reward : String
  verified : Bool
deriving DecidableEq, Repr

/-- Value of the `account` cell: `null` (initial value and after disconnect),
`undefined` (what `accounts[0]` is for an empty array) or a string. -/
inductive Account where
  | null
  | undefined
  | str (a : String)
deriving DecidableEq, Repr

/-- The signer obtained from `provider.getSigner()`; only its identity matters. -/
structure Signer where
  address : String
deriving DecidableEq, Repr

/-- An `ethers.Contract` instance. -/
structure ContractHandle where
  target : String
  abi : List String
  runner : Signer
deriving DecidableEq, Repr

/-- The transaction response returned by `contract.verifyReport(...)`. -/
structure Tx where
  hash : String
deriving DecidableEq, Repr

/-- The seven state cells of `App` (lines 41-47). -/
structure AppState where
  reports : List Report
  walletConnected : Bool
  account : Account
  contract : Option ContractHandle
  isOwner : Bool
  preview : Option String
  loading : Bool
deriving DecidableEq, Repr

/-- The initial values passed to `useState` (lines 41-47). -/
def initialState : AppState :=
  { reports := []
    walletConnected := false
    account := Account.null
    contract := none
    isOwner := false
    preview := none
    loading := true }

/-- Externally visible effects, in program order. -/
inductive Effect where
  | httpGet (url : String)
  | consoleError (msg : String)
  | toastSuccess (msg : String)
  | toastError (msg : String)
  | promptShown (msg : String)
  | getSigner
  | requestAccounts
  | contractCall (c : ContractHandle) (reportId : Int) (amount : Nat) (value : Nat)
  | txWait (tx : Tx)
deriving DecidableEq, Repr

/-! ## The handler monad -/

/-- Outcome of running a handler: the value or the thrown error, the state
cells afterwards and the effects performed. -/
structure Run (α : Type) where
  result : Except String α
  state : AppState
  effects : List Effect

/-- A handler: a function of the state cells it starts from. -/
def Act (α : Type) : Type := AppState → Run α

namespace Act

/-- Normal completion with a value. -/
def ret {α : Type} (a : α) : Act α := fun s => ⟨Except.ok a, s, []⟩

/-- Sequencing: a thrown error skips the rest. -/
def andThen {α β : Type} (m : Act α) (f : α → Act β) : Act β := fun s =>
  match m s with
  | ⟨Except.error e, s1, fx⟩ => ⟨Except.error e, s1, fx⟩
  | ⟨Except.ok a, s1, fx⟩ =>
    match f a s1 with
    | ⟨r, s2, fx2⟩ => ⟨r, s2, fx ++ fx2⟩

instance : Monad Act where
  pure := ret
  bind := andThen

/-- The statement `throw e`. -/
def raise {α : Type} (e : String) : Act α := fun s => ⟨Except.error e, s, []⟩

/-- Reading the state cells captured by the handler. -/
def cells : Act AppState := fun s => ⟨Except.ok s, s, []⟩

/-- Applying a state setter. -/
def update (f : AppState → AppState) : Act Unit := fun s => ⟨Except.ok (), f s, []⟩

/-- Performing one effect. -/
def emit (e : Effect) : Act Unit := fun s => ⟨Except.ok (), s, [e]⟩

/-- The expression `await p` on a settled promise, and any library call that
either returns or throws. -/
def await {α : Type} (p : Except String α) : Act α :=
  match p with
  | Except.ok a => ret a
  | Except.error e => raise e

/-- The statement `try { body } catch (error) { handler }`. -/
def tryCatch (body : Act Unit) (handler : String → Act Unit) : Act Unit := fun s =>
  match body s with
  | ⟨Except.ok a, s1, fx⟩ => ⟨Except.ok a, s1, fx⟩
  | ⟨Except.error e, s1, fx⟩ =>
    match handler e s1 with
    | ⟨r, s2, fx2⟩ => ⟨r, s2, fx ++ fx2⟩

/-- The statement `try { body } finally { fin }`: `fin` always runs; an error
of `body` is rethrown after it unless `fin` itself throws. -/
def tryFinally (body : Act Unit) (fin : Act Unit) : Act Unit := fun s =>
  match body s with
  | ⟨r, s1, fx⟩ =>
    match fin s1 with
    | ⟨Except.ok _, s2, fx2⟩ => ⟨r, s2, fx ++ fx2⟩
    | ⟨Except.error e, s2, fx2⟩ => ⟨Except.error e, s2, fx ++ fx2⟩

/-- A call of an async function whose promise is not awaited: the callee
runs, its rejection is not thrown into the caller. -/
def noAwait (m : Act Unit) : Act Unit := fun s =>
  match m s with
  | ⟨_, s1, fx⟩ => ⟨Except.ok (), s1, fx⟩

end Act

/-! ## State setters and notifications -/

def setReports (v : List Report) : Act Unit := Act.update fun s => { s with reports := v }
def setWalletConnected (v : Bool) : Act Unit := Act.update fun s => { s with walletConnected := v }
def setAccount (v : Account) : Act Unit := Act.update fun s => { s with account := v }
def setContract (v : Option ContractHandle) : Act Unit := Act.update fun s => { s with contract := v }
def setIsOwner (v : Bool) : Act Unit := Act.update fun s => { s with isOwner := v }
def setPreview (v : Option String) : Act Unit := Act.update fun s => { s with preview := v }
def setLoading (v : Bool) : Act Unit := Act.update fun s => { s with loading := v }

def consoleError (msg : String) : Act Unit := Act.emit (Effect.consoleError msg)
def toastSuccess (msg : String) : Act Unit := Act.emit (Effect.toastSuccess msg)
def toastError (msg : String) : Act Unit := Act.emit (Effect.toastError msg)

/-! ## Inputs from outside the repository -/

/-- The two constants of `./config` (line 4). -/
structure Config where
  contractAddress : String
  contractABI : List String

/-- Library functions used by the handlers.  `parseEther` is applied to what
`prompt` returned, a string or `null` (`none`). -/
structure Platform where
  toLowerCase : String → String
  parseEther : Option String → Except String Nat
  newContract : String → List String → Signer → Except String ContractHandle

/-- Answers of the browser during one `connectWallet`: whether
`window.ethereum` is present, what lines 73-74 yield (a signer or an error)
and what the `eth_requestAccounts` request resolves to. -/
structure WalletEnv where
  ethereum : Bool
  getSigner : Except String Signer
  requestAccounts : Except String (List String)

/-- Answers of the user, the contract and the backend during one
`verifyReport`; `fetch` is the answer to the refetch that follows a success. -/
structure VerifyEnv where
  promptResult : Option String
  send : ContractHandle → Int → Nat → Nat → Except String Tx
  wait : Tx → Except String Unit
  fetch : Except String (List Report)

/-! ## Handlers -/

/-- Lines 53-68: `fetchReports`; `response` is the answer to `axios.get`. -/
def fetchReports (response : Except String (List Report)) : Act Unit := do
  setLoading true
  Act.tryFinally
    (Act.tryCatch
      (do
        Act.emit (Effect.httpGet baseURL)
        let data ← Act.await response
        setReports data)
      (fun _ => do
        consoleError "Error fetching reports:"
        toastError "Failed to fetch reports"))
    (setLoading false)

/-- The expression `accounts[0]`. -/
def firstAccount : List String → Account
  | [] => Account.undefined
  | a :: _ => Account.str a

/-- The method call `connectedAccount.toLowerCase()`: a TypeError unless the
receiver is a string. -/
def accountToLowerCase (p : Platform) : Account → Except String String
  | Account.str a => Except.ok (p.toLowerCase a)
  | Account.undefined => Except.error "TypeError: cannot read properties of undefined"
  | Account.null => Except.error "TypeError: cannot read properties of null"

/-- Lines 70-92: `connectWallet`. -/
def connectWallet (cfg : Config) (p : Platform) (env : WalletEnv) : Act Unit :=
  if env.ethereum then
    Act.tryCatch
      (do
        Act.emit Effect.getSigner
        let signer ← Act.await env.getSigner
        Act.emit Effect.requestAccounts
        let accounts ← Act.await env.requestAccounts
        let connectedAccount := firstAccount accounts
        setAccount connectedAccount
        let contractInstance ← Act.await (p.newContract cfg.contractAddress cfg.contractABI signer)
        setContract (some contractInstance)
        let lowered ← Act.await (accountToLowerCase p connectedAccount)
        setIsOwner (decide (lowered = p.toLowerCase OWNER_ADDRESS))
        setWalletConnected true
        toastSuccess "Wallet connected successfully!")
      (fun _ => do
        consoleError "Error connecting wallet:"
        toastError "Failed to connect wallet")
  else
    toastError "Please install MetaMask!"

/-- Lines 94-100: `disconnectWallet`. -/
def disconnectWallet : Act Unit := do
  setAccount Account.null
  setWalletConnected false
  setContract none
  setIsOwner false
  toastSuccess "Wallet disconnected"

/-- Lines 102-117: `verifyReport`.  Both occurrences of
`ethers.parseEther(rewardAmount)` are evaluated, left to right, before the
contract method is called. -/
def verifyReport (p : Platform) (env : VerifyEnv) (reportId : Int) : Act Unit := do
  let s ← Act.cells
  match s.contract with
  | none => return ()
  | some contract =>
    Act.tryCatch
      (do
        Act.emit (Effect.promptShown "Enter reward amount (in ETH):")
        let rewardAmount := env.promptResult
        let amount ← Act.await (p.parseEther rewardAmount)
        let value ← Act.await (p.parseEther rewardAmount)
        Act.emit (Effect.contractCall contract reportId amount value)
        let tx ← Act.await (env.send contract reportId amount value)
        Act.emit (Effect.txWait tx)
        Act.await (env.wait tx)
        toastSuccess "Report verified successfully!"
        Act.noAwait (fetchReports env.fetch))
      (fun _ => do
        consoleError "Error verifying report:"
        toastError "Failed to verify the report")

/-- Lines 119-121: `togglePreview`. -/
def togglePreview (link : String) : Act Unit := do
  let s ← Act.cells
  setPreview (if s.preview = some link then none else some link)

/-! ## The view -/

/-- What one report card shows that depends on the state (lines 165-222). -/
structure CardView where
  key : Int
  verifiedBadge : String
  evidenceButton : String
  verifyButton : Bool
  image : Option String
deriving DecidableEq, Repr

/-- Lines 136-148: the wallet area. -/
inductive HeaderView where
  | connected (ownerIndicator : Option String)
  | connectButton
deriving DecidableEq, Repr

/-- Lines 151-226: spinner while loading, else one card per report. -/
inductive BodyView where
  | spinner
  | cards (cs : List CardView)
deriving DecidableEq, Repr

structure View where
  header : HeaderView
  body : BodyView
deriving DecidableEq, Repr

/-- The callback of `reports.map` (lines 157-224). -/
def renderCard (preview : Option String) (report : Report) : CardView :=
  { key := report.id
    verifiedBadge := if report.verified then "Verified" else "Pending"
    evidenceButton := if preview = some report.evidenceLink then "Hide Evidence" else "View Evidence"
    verifyButton := !report.verified
    image := if preview = some report.evidenceLink then some report.evidenceLink else none }

/-- Lines 123-228: the JSX returned by `App`. -/
def render (s : AppState) : View :=
  { header :=
      if s.walletConnected then
        HeaderView.connected (if s.isOwner then some "Contract Owner" else none)
      else HeaderView.connectButton
    body :=
      if s.loading then BodyView.spinner
      else BodyView.cards (s.reports.map (renderCard s.preview)) }

/-- The report cards present in a view. -/
def View.cardList (v : View) : List CardView :=
  match v.body with
  | BodyView.spinner => []
  | BodyView.cards cs => cs

/-- Whether the view shows the text `Contract Owner`. -/
def View.ownerIndicatorShown (v : View) : Bool :=
  match v.header with
  | HeaderView.connected (some _) => true
  | _ => false

/-- Whether the card of `report` contains the evidence image. -/
def imageShown (s : AppState) (report : Report) : Bool :=
  ((renderCard s.preview report).image).isSome

/-! ## Runs of the component -/

/-- Lines 49-51: the effect run once on mount. -/
def onMount (response : Except String (List Report)) : Run Unit :=
  fetchReports response initialState

/-- States the wallet buttons can produce: any number of clicks on
"Connect Wallet" (with any answer of the browser) and "Disconnect Wallet". -/
inductive Reachable (cfg : Config) (p : Platform) : AppState → Prop
  | init : Reachable cfg p initialState
  | connect (env : WalletEnv) {s : AppState} :
      Reachable cfg p s → Reachable cfg p (connectWallet cfg p env s).state
  | disconnect {s : AppState} :
      Reachable cfg p s → Reachable cfg p (disconnectWallet s).state

/-! ## Observations on effect traces -/

def Effect.isHttpGet : Effect → Bool
  | Effect.httpGet _ => true
  | _ => false

def Effect.isContractCall : Effect → Bool
  | Effect.contractCall _ _ _ _ => true
  | _ => false

def Effect.isToast : Effect → Bool
  | Effect.toastSuccess _ => true
  | Effect.toastError _ => true
  | _ => false

/-- Number of reads of the reports endpoint in a trace; `fetchReports`
performs exactly one per invocation. -/
def fetchCount (fx : List Effect) : Nat := fx.countP Effect.isHttpGet

/-- One of `0-9`, `a-f`, `A-F`. -/
def isHexDigit (c : Char) : Bool :=
  (48 ≤ c.toNat && c.toNat ≤ 57) || (97 ≤ c.toNat && c.toNat ≤ 102) ||
    (65 ≤ c.toNat && c.toNat ≤ 70)

/-- The address format `0x` followed by exactly 40 hexadecimal digits. -/
def wellFormedAddress (a : String) : Bool :=
  match a.data with
  | '0' :: 'x' :: digits => decide (digits.length = 40) && digits.all isHexDigit
  | _ => false

/-! ## Sample inputs for concrete evaluation -/

def sampleConfig : Config :=
  { contractAddress := "0x5FbDB2315678afecb367f032d93F642f64180aa3"
    contractABI := ["function verifyReport(uint256,uint256) payable"] }

/-- A sample platform: ASCII lower-casing, a two-entry `parseEther` table and
a `Contract` constructor that always succeeds. -/
def samplePlatform : Platform :=
  { toLowerCase := fun a => String.mk (a.data.map Char.toLower)
    parseEther := fun amount =>
      if amount = some "1" then Except.ok 1000000000000000000
      else if amount = some "0.5" then Except.ok 500000000000000000
      else Except.error "invalid FixedNumber string value"
    newContract := fun target abi signer => Except.ok ⟨target, abi, signer⟩ }

def sampleSigner : Signer := ⟨"0x70997970C51812dc3A010C7d01b50e0d17dc79C8"⟩

def sampleContract : ContractHandle :=
  ⟨sampleConfig.contractAddress, sampleConfig.contractABI, sampleSigner⟩

def reportA : Report :=
  { id := 1, reporter := "0x70997970C51812dc3A010C7d01b50e0d17dc79C8", location := "Kochi"
    description := "pothole", evidenceLink := "https://ipfs.io/ipfs/QmEvidence"
    reward := "0", verified := false }

def reportB : Report :=
  { id := 2, reporter := "0x3C44CdDdB6a900fa2b585dd299e03d12FA4293BC", location := "Kochi"
    description := "pothole, second sighting", evidenceLink := "https://ipfs.io/ipfs/QmEvidence"
    reward := "0", verified := false }

def reportC : Report :=
  { id := 3, reporter := "0x3C44CdDdB6a900fa2b585dd299e03d12FA4293BC", location := "Aluva"
    description := "broken street light", evidenceLink := "https://ipfs.io/ipfs/QmOther"
    reward := "0", verified := true }

/-- The browser answers with the owner address in upper-case hexadecimal. -/
def ownerEnv : WalletEnv :=
  { ethereum := true
    getSigner := Except.ok sampleSigner
    requestAccounts := Except.ok ["0x0A5BE85D5437D8DB3887DE2ACF64457C67030278"] }

/-- The browser hands out a signer but resolves the account request to `[]`. -/
def emptyAccountsEnv : WalletEnv :=
  { ethereum := true
    getSigner := Except.ok sampleSigner
    requestAccounts := Except.ok [] }

/-- The user enters `1`, the transaction is accepted and confirmed, the
refetch returns two reports. -/
def acceptingEnv : VerifyEnv :=
  { promptResult := some "1"
    send := fun _ _ _ _ => Except.ok ⟨"0xabc"⟩
    wait := fun _ => Except.ok ()
    fetch := Except.ok [reportA, reportC] }

/-- The user enters `1` and the wallet rejects the transaction. -/
def rejectingEnv : VerifyEnv :=
  { promptResult := some "1"
    send := fun _ _ _ _ => Except.error "user rejected action"
    wait := fun _ => Except.ok ()
    fetch := Except.ok [] }

/-- The user enters `1`, the transaction is accepted and confirmed, and the
refetch that follows fails. -/
def failingRefetchEnv : VerifyEnv :=
  { promptResult := some "1"
    send := fun _ _ _ _ => Except.ok ⟨"0xabc"⟩
    wait := fun _ => Except.ok ()
    fetch := Except.error "Network Error" }

/-- A session: the mount fetch returns one report, the owner connects, a
verification succeeds and the refetch after it fails. -/
def failedRefetchRun : Run Unit :=
  verifyReport samplePlatform failingRefetchEnv 1
    (connectWallet sampleConfig samplePlatform ownerEnv
      (onMount (Except.ok [reportA])).state).state

/-- A connected session holding one unverified report. -/
def connectedState : AppState :=
  { reports := [reportA]
    walletConnected := true
    account := Account.str "0x70997970C51812dc3A010C7d01b50e0d17dc79C8"
    contract := some sampleContract
    isOwner := false
    preview := none
    loading := false }


/-! ## Basic facts about the handlers -/

theorem fetchReports_ok (data : List Report) (s : AppState) :
    fetchReports (Except.ok data) s =
      ⟨Except.ok (), { s with reports := data, loading := false }, [Effect.httpGet baseURL]⟩ :=
  rfl

theorem fetchReports_error (e : String) (s : AppState) :
    fetchReports (Except.error e) s =
      ⟨Except.ok (), { s with loading := false },
        [Effect.httpGet baseURL, Effect.consoleError "Error fetching reports:",
          Effect.toastError "Failed to fetch reports"]⟩ :=
  rfl

theorem fetchReports_fetchCount (response : Except String (List Report)) (s : AppState) :
    fetchCount (fetchReports response s).effects = 1 := by
  cases response with
  | error e => rw [fetchReports_error]; rfl
  | ok data => rw [fetchReports_ok]; rfl

theorem disconnectWallet_run (s : AppState) :
    disconnectWallet s =
      ⟨Except.ok (),
        { s with account := Account.null, walletConnected := false, contract := none,
                 isOwner := false },
        [Effect.toastSuccess "Wallet disconnected"]⟩ :=
  rfl

theorem verifyReport_without_contract (p : Platform) (env : VerifyEnv) (reportId : Int)
    (s : AppState) (h : s.contract = none) :
    verifyReport p env reportId s = ⟨Except.ok (), s, []⟩ := by
  simp [verifyReport, bind, pure, Act.andThen, Act.cells, Act.ret, h]

theorem togglePreview_run (link : String) (s : AppState) :
    togglePreview link s =
      ⟨Except.ok (), { s with preview := if s.preview = some link then none else some link },
        []⟩ :=
  rfl

/-! ## Report list -/

/-- C7: after a successful `fetchReports` the `reports` cell is the response
array, whatever it held before, `loading` is false, and the view contains as
many report cards as the response array has elements. -/
theorem fetchReports_success_replaces_list (s : AppState) (data : List Report) :
    (fetchReports (Except.ok data) s).state.reports = data ∧
    (fetchReports (Except.ok data) s).state.loading = false ∧
    (render (fetchReports (Except.ok data) s).state).cardList.length = data.length := by
  rw [fetchReports_ok]
  simp [render, View.cardList]

/-- C6, as stated, fails: the mount fetch returns one report, the owner
connects and verifies it, and the network read of the refetch fails; the
failure notification is issued and the report is still in the list. -/
theorem fetchReports_failure_list_not_emptied :
    Effect.httpGet baseURL ∈ failedRefetchRun.effects ∧
    Effect.toastError "Failed to fetch reports" ∈ failedRefetchRun.effects ∧
    failedRefetchRun.state.reports = [reportA] ∧
    failedRefetchRun.state.reports ≠ [] ∧
    (fetchReports (Except.error "Network Error")
      (onMount (Except.ok [reportA])).state).state.reports ≠ [] := by
  decide

/-- C6, amended: a `fetchReports` whose network read fails leaves the
`reports` cell as it was (so empty for the call made on mount), issues the
notification `Failed to fetch reports`, ends with `loading` false and
completes normally. -/
theorem fetchReports_failure_keeps_list (s : AppState) (e : String) :
    (fetchReports (Except.error e) s).state.reports = s.reports ∧
    (onMount (Except.error e)).state.reports = [] ∧
    Effect.toastError "Failed to fetch reports" ∈ (fetchReports (Except.error e) s).effects ∧
    (fetchReports (Except.error e) s).state.loading = false ∧
    (fetchReports (Except.error e) s).result = Except.ok () := by
  simp [onMount, fetchReports_error, initialState]

/-! ## Evidence preview -/

/-- C5: a click on a report's evidence button flips whether that report's
image is shown: shown afterwards exactly when it was not shown before. -/
theorem togglePreview_flips_image (s : AppState) (report : Report) :
    imageShown (togglePreview report.evidenceLink s).state report = !imageShown s report := by
  rw [togglePreview_run]
  by_cases h : s.preview = some report.evidenceLink <;> simp [imageShown, renderCard, h]

/-- C4, as stated, fails: two distinct reports of the list that carry the
same evidence link; after a click on the first and a click on the second no
evidence is previewed and the second report's image is hidden. -/
theorem togglePreview_same_link_hides_second :
    reportA ≠ reportB ∧
    reportA ∈ (onMount (Except.ok [reportA, reportB])).state.reports ∧
    reportB ∈ (onMount (Except.ok [reportA, reportB])).state.reports ∧
    (onMount (Except.ok [reportA, reportB])).state.preview = none ∧
    (togglePreview reportB.evidenceLink
      (togglePreview reportA.evidenceLink
        (onMount (Except.ok [reportA, reportB])).state).state).state.preview = none ∧
    imageShown
      (togglePreview reportB.evidenceLink
        (togglePreview reportA.evidenceLink
          (onMount (Except.ok [reportA, reportB])).state).state).state
      reportB = false := by
  decide

/-- C4, amended: for two reports whose evidence links differ, a click on the
evidence button of the first and then of the second leaves the second
report's image shown and the first report's image hidden (from any preview
state, in particular from the one where nothing is previewed). -/
theorem togglePreview_second_click_wins (s : AppState) (a b : Report)
    (hlink : a.evidenceLink ≠ b.evidenceLink) :
    imageShown (togglePreview b.evidenceLink (togglePreview a.evidenceLink s).state).state b
      = true ∧
    imageShown (togglePreview b.evidenceLink (togglePreview a.evidenceLink s).state).state a
      = false := by
  rw [togglePreview_run, togglePreview_run]
  by_cases h : s.preview = some a.evidenceLink
  · simp [imageShown, renderCard, h, hlink, Ne.symm hlink]
  · simp [imageShown, renderCard, h, hlink, Ne.symm hlink]

/-- C4, amended, on the sample reports A and C, whose links differ. -/
theorem togglePreview_second_click_wins_witness :
    reportA.evidenceLink ≠ reportC.evidenceLink ∧
    imageShown
      (togglePreview reportC.evidenceLink
        (togglePreview reportA.evidenceLink initialState).state).state reportC = true ∧
    imageShown
      (togglePreview reportC.evidenceLink
        (togglePreview reportA.evidenceLink initialState).state).state reportA = false :=
  ⟨by decide, togglePreview_second_click_wins initialState reportA reportC (by decide)⟩

/-! ## Wallet session -/

/-- C3: `disconnectWallet` sets `account` to null, `walletConnected` and
`isOwner` to false and `contract` to null, and leaves `reports`, `preview`
and `loading` as they were; in the resulting state `verifyReport` does
nothing for any report id: no contract call, no notification, no refetch, no
state change. -/
theorem disconnectWallet_clears_session (s : AppState) :
    (disconnectWallet s).state.account = Account.null ∧
    (disconnectWallet s).state.walletConnected = false ∧
    (disconnectWallet s).state.isOwner = false ∧
    (disconnectWallet s).state.contract = none ∧
    (disconnectWallet s).state.reports = s.reports ∧
    (disconnectWallet s).state.preview = s.preview ∧
    (disconnectWallet s).state.loading = s.loading ∧
    ∀ (p : Platform) (env : VerifyEnv) (reportId : Int),
      (verifyReport p env reportId (disconnectWallet s).state).effects = [] ∧
      (verifyReport p env reportId (disconnectWallet s).state).state = (disconnectWallet s).state := by
  refine ⟨rfl, rfl, rfl, rfl, rfl, rfl, rfl, ?_⟩
  intro p env reportId
  rw [verifyReport_without_contract p env reportId _ rfl]
  exact ⟨rfl, rfl⟩

/-! ## The owner constant -/

/-- C9, as stated, fails: the constant does not have a wrong length and is
not ill-formed. -/
theorem OWNER_ADDRESS_not_malformed :
    ¬ (OWNER_ADDRESS.length ≠ 42) ∧ ¬ (wellFormedAddress OWNER_ADDRESS = false) := by
  decide

/-- C9, amended: `OWNER_ADDRESS` is a well-formed address: 42 characters,
`0x` followed by exactly 40 hexadecimal digits. -/
theorem OWNER_ADDRESS_well_formed :
    OWNER_ADDRESS.length = 42 ∧ wellFormedAddress OWNER_ADDRESS = true ∧
    OWNER_ADDRESS.data.take 2 = ['0', 'x'] ∧
    (OWNER_ADDRESS.data.drop 2).length = 40 ∧
    (OWNER_ADDRESS.data.drop 2).all isHexDigit = true := by
  decide


/-! ## Verification -/

/-- The run of `verifyReport` when the amount is refused by `parseEther`. -/
theorem verifyReport_parse_error (p : Platform) (env : VerifyEnv) (reportId : Int)
    (s : AppState) (c : ContractHandle) (e : String) (hc : s.contract = some c)
    (hp : p.parseEther env.promptResult = Except.error e) :
    verifyReport p env reportId s =
      ⟨Except.ok (), s,
        [Effect.promptShown "Enter reward amount (in ETH):",
          Effect.consoleError "Error verifying report:",
          Effect.toastError "Failed to verify the report"]⟩ := by
  simp [verifyReport, bind, Act.andThen, Act.cells, hc, Act.tryCatch, Act.emit, Act.await,
    hp, Act.raise, consoleError, toastError]

/-- The run of `verifyReport` when the contract call is rejected. -/
theorem verifyReport_send_error (p : Platform) (env : VerifyEnv) (reportId : Int)
    (s : AppState) (c : ContractHandle) (a : Nat) (e : String) (hc : s.contract = some c)
    (hp : p.parseEther env.promptResult = Except.ok a)
    (hs : env.send c reportId a a = Except.error e) :
    verifyReport p env reportId s =
      ⟨Except.ok (), s,
        [Effect.promptShown "Enter reward amount (in ETH):",
          Effect.contractCall c reportId a a,
          Effect.consoleError "Error verifying report:",
          Effect.toastError "Failed to verify the report"]⟩ := by
  simp [verifyReport, bind, Act.andThen, Act.cells, hc, Act.tryCatch, Act.emit, Act.await,
    hp, hs, Act.raise, Act.ret, consoleError, toastError]

/-- The run of `verifyReport` when waiting for the confirmation fails. -/
theorem verifyReport_wait_error (p : Platform) (env : VerifyEnv) (reportId : Int)
    (s : AppState) (c : ContractHandle) (a : Nat) (tx : Tx) (e : String)
    (hc : s.contract = some c)
    (hp : p.parseEther env.promptResult = Except.ok a)
    (hs : env.send c reportId a a = Except.ok tx)
    (hw : env.wait tx = Except.error e) :
    verifyReport p env reportId s =
      ⟨Except.ok (), s,
        [Effect.promptShown "Enter reward amount (in ETH):",
          Effect.contractCall c reportId a a,
          Effect.txWait tx,
          Effect.consoleError "Error verifying report:",
          Effect.toastError "Failed to verify the report"]⟩ := by
  simp [verifyReport, bind, Act.andThen, Act.cells, hc, Act.tryCatch, Act.emit, Act.await,
    hp, hs, hw, Act.raise, Act.ret, consoleError, toastError]

/-- The run of `verifyReport` when every step succeeds. -/
theorem verifyReport_success (p : Platform) (env : VerifyEnv) (reportId : Int)
    (s : AppState) (c : ContractHandle) (a : Nat) (tx : Tx)
    (hc : s.contract = some c)
    (hp : p.parseEther env.promptResult = Except.ok a)
    (hs : env.send c reportId a a = Except.ok tx)
    (hw : env.wait tx = Except.ok ()) :
    verifyReport p env reportId s =
      ⟨Except.ok (), (fetchReports env.fetch s).state,
        [Effect.promptShown "Enter reward amount (in ETH):",
          Effect.contractCall c reportId a a,
          Effect.txWait tx,
          Effect.toastSuccess "Report verified successfully!"]
          ++ (fetchReports env.fetch s).effects⟩ := by
  simp [verifyReport, bind, Act.andThen, Act.cells, hc, Act.tryCatch, Act.emit, Act.await,
    hp, hs, hw, Act.raise, Act.ret, toastSuccess, Act.noAwait]

/-- C1: with a contract handle present, if `verifyReport` fails at any step
(the prompted amount is refused by `parseEther`, the contract call is
rejected, or the wait for the confirmation fails) the state, hence the
reports list, is unchanged, the notification `Failed to verify the report`
is issued and the reports endpoint is not read; if every step succeeds,
`fetchReports` runs exactly once (one read of the endpoint, and the state
afterwards is that of one `fetchReports` from the starting state). -/
theorem verifyReport_failure_or_single_refetch (p : Platform) (env : VerifyEnv)
    (s : AppState) (c : ContractHandle) (reportId : Int) (hc : s.contract = some c) :
    (((∃ e, p.parseEther env.promptResult = Except.error e) ∨
      (∃ a e, p.parseEther env.promptResult = Except.ok a ∧
        env.send c reportId a a = Except.error e) ∨
      (∃ a tx e, p.parseEther env.promptResult = Except.ok a ∧
        env.send c reportId a a = Except.ok tx ∧ env.wait tx = Except.error e)) →
      (verifyReport p env reportId s).state = s ∧
      (verifyReport p env reportId s).state.reports = s.reports ∧
      Effect.toastError "Failed to verify the report" ∈ (verifyReport p env reportId s).effects ∧
      fetchCount (verifyReport p env reportId s).effects = 0) ∧
    ((∃ a tx, p.parseEther env.promptResult = Except.ok a ∧
        env.send c reportId a a = Except.ok tx ∧ env.wait tx = Except.ok ()) →
      fetchCount (verifyReport p env reportId s).effects = 1 ∧
      (verifyReport p env reportId s).state = (fetchReports env.fetch s).state ∧
      Effect.toastError "Failed to verify the report" ∉ (verifyReport p env reportId s).effects) := by
  constructor
  · rintro (⟨e, hp⟩ | ⟨a, e, hp, hs⟩ | ⟨a, tx, e, hp, hs, hw⟩)
    · rw [verifyReport_parse_error p env reportId s c e hc hp]
      simp [fetchCount, Effect.isHttpGet]
    · rw [verifyReport_send_error p env reportId s c a e hc hp hs]
      simp [fetchCount, Effect.isHttpGet]
    · rw [verifyReport_wait_error p env reportId s c a tx e hc hp hs hw]
      simp [fetchCount, Effect.isHttpGet]
  · rintro ⟨a, tx, hp, hs, hw⟩
    rw [verifyReport_success p env reportId s c a tx hc hp hs hw]
    refine ⟨?_, rfl, ?_⟩
    · have h := fetchReports_fetchCount env.fetch s
      simp only [fetchCount] at h ⊢
      simp [List.countP_append, h, Effect.isHttpGet]
    · cases hf : env.fetch with
      | error e => simp [fetchReports_error]
      | ok data => simp [fetchReports_ok]

/-- C1 on the sample session: a rejected transaction leaves the state alone
and reads nothing; an accepted and confirmed one reads the endpoint once. -/
theorem verifyReport_failure_or_single_refetch_witness :
    connectedState.contract = some sampleContract ∧
    (verifyReport samplePlatform rejectingEnv 1 connectedState).state = connectedState ∧
    fetchCount (verifyReport samplePlatform rejectingEnv 1 connectedState).effects = 0 ∧
    fetchCount (verifyReport samplePlatform acceptingEnv 1 connectedState).effects = 1 :=
  ⟨rfl,
    ((verifyReport_failure_or_single_refetch samplePlatform rejectingEnv connectedState
      sampleContract 1 rfl).1
      (Or.inr (Or.inl ⟨1000000000000000000, "user rejected action", rfl, rfl⟩))).1,
    ((verifyReport_failure_or_single_refetch samplePlatform rejectingEnv connectedState
      sampleContract 1 rfl).1
      (Or.inr (Or.inl ⟨1000000000000000000, "user rejected action", rfl, rfl⟩))).2.2.2,
    ((verifyReport_failure_or_single_refetch samplePlatform acceptingEnv connectedState
      sampleContract 1 rfl).2
      ⟨1000000000000000000, ⟨"0xabc"⟩, rfl, rfl, rfl⟩).1⟩

/-- C8: when the prompted amount string is accepted by `parseEther`, the one
contract call made by `verifyReport` has the report id as first argument,
`parseEther(amount)` as second argument and the same number as attached
value. -/
theorem verifyReport_call_arguments (p : Platform) (env : VerifyEnv) (s : AppState)
    (c : ContractHandle) (reportId : Int) (amount : String) (wei : Nat)
    (hc : s.contract = some c) (hprompt : env.promptResult = some amount)
    (hparse : p.parseEther (some amount) = Except.ok wei) :
    (verifyReport p env reportId s).effects.filter Effect.isContractCall =
      [Effect.contractCall c reportId wei wei] := by
  have hp : p.parseEther env.promptResult = Except.ok wei := by rw [hprompt]; exact hparse
  cases hs : env.send c reportId wei wei with
  | error e =>
    rw [verifyReport_send_error p env reportId s c wei e hc hp hs]
    simp [Effect.isContractCall]
  | ok tx =>
    cases hw : env.wait tx with
    | error e =>
      rw [verifyReport_wait_error p env reportId s c wei tx e hc hp hs hw]
      simp [Effect.isContractCall]
    | ok u =>
      rw [verifyReport_success p env reportId s c wei tx hc hp hs hw]
      cases hf : env.fetch with
      | error e => simp [fetchReports_error, Effect.isContractCall]
      | ok data => simp [fetchReports_ok, Effect.isContractCall]

/-- C8 on the sample session: report 7, prompted amount `1`. -/
theorem verifyReport_call_arguments_witness :
    connectedState.contract = some sampleContract ∧
    acceptingEnv.promptResult = some "1" ∧
    samplePlatform.parseEther (some "1") = Except.ok 1000000000000000000 ∧
    (verifyReport samplePlatform acceptingEnv 7 connectedState).effects.filter
        Effect.isContractCall =
      [Effect.contractCall sampleContract 7 1000000000000000000 1000000000000000000] :=
  ⟨rfl, rfl, rfl,
    verifyReport_call_arguments samplePlatform acceptingEnv connectedState sampleContract 7 "1"
      1000000000000000000 rfl rfl rfl⟩

/-! ## Wallet connection -/

/-- The run of `connectWallet` when the provider is present, a signer and a
non-empty account list are obtained and the contract instance is built. -/
theorem connectWallet_success (cfg : Config) (p : Platform) (env : WalletEnv) (s : AppState)
    (signer : Signer) (a : String) (rest : List String) (c : ContractHandle)
    (he : env.ethereum = true) (hs : env.getSigner = Except.ok signer)
    (ha : env.requestAccounts = Except.ok (a :: rest))
    (hn : p.newContract cfg.contractAddress cfg.contractABI signer = Except.ok c) :
    connectWallet cfg p env s =
      ⟨Except.ok (),
        { s with account := Account.str a, contract := some c,
                 isOwner := decide (p.toLowerCase a = p.toLowerCase OWNER_ADDRESS),
                 walletConnected := true },
        [Effect.getSigner, Effect.requestAccounts,
          Effect.toastSuccess "Wallet connected successfully!"]⟩ := by
  simp [connectWallet, he, hs, ha, hn, bind, Act.andThen, Act.tryCatch, Act.emit, Act.await,
    Act.ret, firstAccount, accountToLowerCase, setAccount, setContract, setIsOwner,
    setWalletConnected, toastSuccess, Act.update]

/-- C2: after a successful `connectWallet` whose account list starts with
`a`, `walletConnected` is true, `isOwner` is the result of comparing the
lower-cased `a` with the lower-cased `OWNER_ADDRESS`, and the view shows
`Contract Owner` exactly when the two lower-cased strings are equal. -/
theorem connectWallet_owner_indicator (cfg : Config) (p : Platform) (env : WalletEnv)
    (s : AppState) (signer : Signer) (a : String) (rest : List String) (c : ContractHandle)
    (he : env.ethereum = true) (hs : env.getSigner = Except.ok signer)
    (ha : env.requestAccounts = Except.ok (a :: rest))
    (hn : p.newContract cfg.contractAddress cfg.contractABI signer = Except.ok c) :
    (connectWallet cfg p env s).state.walletConnected = true ∧
    (connectWallet cfg p env s).state.account = Account.str a ∧
    (connectWallet cfg p env s).state.isOwner =
      decide (p.toLowerCase a = p.toLowerCase OWNER_ADDRESS) ∧
    ((render (connectWallet cfg p env s).state).ownerIndicatorShown = true ↔
      p.toLowerCase a = p.toLowerCase OWNER_ADDRESS) ∧
    ((render (connectWallet cfg p env s).state).header =
        HeaderView.connected (some "Contract Owner") ↔
      p.toLowerCase a = p.toLowerCase OWNER_ADDRESS) := by
  rw [connectWallet_success cfg p env s signer a rest c he hs ha hn]
  refine ⟨rfl, rfl, rfl, ?_, ?_⟩
  · by_cases h : p.toLowerCase a = p.toLowerCase OWNER_ADDRESS <;>
      simp [render, View.ownerIndicatorShown, h]
  · by_cases h : p.toLowerCase a = p.toLowerCase OWNER_ADDRESS <;>
      simp [render, h]

/-- C2 when the provider returns the owner address in upper case. -/
theorem connectWallet_owner_indicator_witness :
    ownerEnv.ethereum = true ∧
    ownerEnv.getSigner = Except.ok sampleSigner ∧
    ownerEnv.requestAccounts = Except.ok ["0x0A5BE85D5437D8DB3887DE2ACF64457C67030278"] ∧
    samplePlatform.newContract sampleConfig.contractAddress sampleConfig.contractABI
      sampleSigner = Except.ok sampleContract ∧
    (render (connectWallet sampleConfig samplePlatform ownerEnv initialState).state).ownerIndicatorShown
      = true :=
  ⟨rfl, rfl, rfl, rfl,
    (connectWallet_owner_indicator sampleConfig samplePlatform ownerEnv initialState
      sampleSigner "0x0A5BE85D5437D8DB3887DE2ACF64457C67030278" [] sampleContract
      rfl rfl rfl rfl).2.2.2.1.mpr (by decide)⟩

/-- In every reachable state `isOwner` is true only if `walletConnected` is. -/
theorem reachable_isOwner_connected (cfg : Config) (p : Platform) (s : AppState)
    (h : Reachable cfg p s) : s.isOwner = true → s.walletConnected = true := by
  induction h with
  | init => intro h; cases h
  | disconnect _ _ => intro h; cases h
  | @connect env s _ ih =>
    cases he : env.ethereum with
    | false => simpa [connectWallet, he, toastError, Act.emit] using ih
    | true =>
      cases hs : env.getSigner with
      | error e =>
        simpa [connectWallet, he, hs, bind, Act.andThen, Act.tryCatch, Act.emit, Act.await,
          Act.raise, consoleError, toastError] using ih
      | ok signer =>
        cases ha : env.requestAccounts with
        | error e =>
          simpa [connectWallet, he, hs, ha, bind, Act.andThen, Act.tryCatch, Act.emit,
            Act.await, Act.raise, Act.ret, consoleError, toastError] using ih
        | ok accounts =>
          cases hn : p.newContract cfg.contractAddress cfg.contractABI signer with
          | error e =>
            simpa [connectWallet, he, hs, ha, hn, bind, Act.andThen, Act.tryCatch, Act.emit,
              Act.await, Act.raise, Act.ret, consoleError, toastError, setAccount,
              Act.update] using ih
          | ok c =>
            cases accounts with
            | nil =>
              simpa [connectWallet, he, hs, ha, hn, bind, Act.andThen, Act.tryCatch, Act.emit,
                Act.await, Act.raise, Act.ret, consoleError, toastError, setAccount,
                setContract, firstAccount, accountToLowerCase, Act.update] using ih
            | cons a rest =>
              rw [connectWallet_success cfg p env s signer a rest c he hs ha hn]
              intro _
              rfl

/-- C10 fails on the code: when the provider hands out a signer but resolves
the account request to the empty list, `connectWallet` stores the contract
instance, then throws at `connectedAccount.toLowerCase()`; the reachable
state has a contract handle while `walletConnected` is false and the view
offers "Connect Wallet", and `verifyReport` in that state calls the
contract. -/
theorem connectWallet_empty_accounts_binds_contract :
    Reachable sampleConfig samplePlatform
      (connectWallet sampleConfig samplePlatform emptyAccountsEnv initialState).state ∧
    (connectWallet sampleConfig samplePlatform emptyAccountsEnv initialState).state.contract
      = some sampleContract ∧
    (connectWallet sampleConfig samplePlatform emptyAccountsEnv initialState).state.walletConnected
      = false ∧
    (connectWallet sampleConfig samplePlatform emptyAccountsEnv initialState).state.account
      = Account.undefined ∧
    (render (connectWallet sampleConfig samplePlatform emptyAccountsEnv initialState).state).header
      = HeaderView.connectButton ∧
    Effect.toastError "Failed to connect wallet" ∈
      (connectWallet sampleConfig samplePlatform emptyAccountsEnv initialState).effects ∧
    Effect.contractCall sampleContract 1 1000000000000000000 1000000000000000000 ∈
      (verifyReport samplePlatform acceptingEnv 1
        (connectWallet sampleConfig samplePlatform emptyAccountsEnv initialState).state).effects :=
  ⟨Reachable.connect emptyAccountsEnv Reachable.init, by decide, by decide, by decide,
    by decide, by decide, by decide⟩


end AdminPanel
